import Mathlib

/-!
Shallow embedding of `src/gh_find_code_mcp/main.py`, the search adapter of
gh-find-code-mcp: a tool that fulfils a "search repositories" request by
invoking the external `gh` CLI and reshaping its JSON output.

Modelling conventions:
* The outcome of `subprocess.run` is an explicit `ExecOutcome` input
  (the environment's response to the spawned process): either the process
  completed with a return code, stdout and stderr, or `subprocess.run`
  raised (`TimeoutExpired` after the 30-second bound, or an `OSError`-style
  launch failure).
* Python exceptions escaping a function are modelled by `Except PyExn`.
* `json.loads` applied to the captured output is modelled by an explicit
  function argument `jsonLoads : String → ParseResult`; `ParseResult.failure`
  is a `json.JSONDecodeError`, `ParseResult.success repos` is a parse to a
  JSON array whose elements carry the fields requested via `--json`
  (`fullName` and `url` are required by the adapter — it subscripts them
  directly — so they are plain fields; the others are `Option`s, `none`
  meaning the key is absent, or, for the string fields accessed as
  `r.get(k) or d`, absent-or-null, which Python's `get` makes
  indistinguishable there).
* Python string primitives are embedded by structural functions on the
  code-point list: `str.strip()` is `pyStrip` (dropping the Unicode
  whitespace set Python strips), `str.startswith(p)` is the code-point
  prefix test `pyStartsWith`, `str.split(",")` is `pySplit`, and `len` /
  slicing (`pyTake`) count code points as Python does.
-/

set_option linter.unusedVariables false

/-- Characters Python treats as whitespace for `str.strip()` /
`str.isspace()` (the `Py_UNICODE_ISSPACE` set). -/
def isPySpace (c : Char) : Bool :=
  let n := c.toNat
  (9 ≤ n && n ≤ 13) || (28 ≤ n && n ≤ 32) || n = 133 || n = 160 ||
    n = 5760 || (8192 ≤ n && n ≤ 8202) || n = 8232 || n = 8233 ||
    n = 8239 || n = 8287 || n = 12288

/-- Python `s.strip()`: remove leading and trailing whitespace. -/
def pyStrip (s : String) : String :=
  String.mk (((s.data.dropWhile isPySpace).reverse.dropWhile isPySpace).reverse)

/-- Python `s[:n]`: the first `n` code points. -/
def pyTake (s : String) (n : Nat) : String :=
  String.mk (s.data.take n)

/-- Helper for `pySplit`: split a code-point list on a separator character,
keeping empty segments, as Python's `str.split` with an explicit separator
does. -/
def pySplitAux (sep : Char) : List Char → List (List Char)
  | [] => [[]]
  | c :: rest =>
    match pySplitAux sep rest with
    | [] => []
    | h :: t => if c = sep then [] :: h :: t else (c :: h) :: t

/-- Python `s.split(sep)` for a one-character separator. -/
def pySplit (s : String) (sep : Char) : List String :=
  (pySplitAux sep s.data).map String.mk

/-- Python exceptions that can escape the adapter uncaught. -/
inductive PyExn where
  | timeoutExpired
  | osError
  deriving DecidableEq, Repr

/-- Outcome of the attempted `subprocess.run([gh, *args], ..., timeout=30)`
invocation: the process completed (with return code, captured stdout and
stderr), or the call raised `TimeoutExpired`, or it raised a launch /
output-capture failure. -/
inductive ExecOutcome where
  | completed (returncode : Int) (stdout : String) (stderr : String)
  | timeout
  | launchFailure
  deriving DecidableEq, Repr

/-- Python `s.startswith(pre)`: code-point prefix test. -/
def pyStartsWith (s pre : String) : Bool :=
  pre.data.isPrefixOf s.data

/-- The literal instructional string `_run_gh` returns when the `gh` binary
cannot be resolved. -/
def ghNotFoundMsg : String :=
  "Error: gh CLI not found. Run: gh-find-code-mcp --set-gh /path/to/gh"

/-- Models `_run_gh(args)`. `gh` is the result of `_find_gh()` (`none` when
neither PATH nor the persisted config yields an executable); `outcome` is the
environment's response to the spawned process. A completed process maps to a
returned string (`"Error: " ++ stderr.strip()` on non-zero exit, else
`stdout.strip()`); a raised `TimeoutExpired` or launch failure is uncaught
and propagates. -/
def run_gh (args : List String) (gh : Option String) (outcome : ExecOutcome) :
    Except PyExn String :=
  match gh with
  | none => Except.ok ghNotFoundMsg
  | some _ =>
    match outcome with
    | ExecOutcome.timeout => Except.error PyExn.timeoutExpired
    | ExecOutcome.launchFailure => Except.error PyExn.osError
    | ExecOutcome.completed rc out err =>
      if rc ≠ 0 then Except.ok ("Error: " ++ pyStrip err)
      else Except.ok (pyStrip out)

/-- The clamp `limit = min(max(limit, 1), 30)` from `search_repos`. -/
def clampLimit (limit : Int) : Int :=
  min (max limit 1) 30

/-- The field list passed to `--json`. -/
def jsonFields : String :=
  "fullName,description,stargazersCount,language,url"

/-- The `--topic` argument pairs: for a truthy (non-empty) `topic`, each
comma-separated segment is trimmed and contributes a `--topic <segment>`
pair (`for t in topic.split(","): args.extend(["--topic", t.strip()])`). -/
def topicArgs (topic : String) : List String :=
  if topic ≠ "" then
    (pySplit topic ',').flatMap (fun t => ["--topic", pyStrip t])
  else []

/-- The argument list `search_repos` constructs for the external invocation
(everything after the binary itself). -/
def buildArgs (query language topic owner sort : String) (limit : Int) :
    List String :=
  ["search", "repos", query, "--json", jsonFields,
   "--limit", toString (clampLimit limit)]
  ++ (if sort ≠ "best-match" then ["--sort", sort] else [])
  ++ (if language ≠ "" then ["--language", language] else [])
  ++ topicArgs topic
  ++ (if owner ≠ "" then ["--owner", owner] else [])

/-- Values bound to the occurrences of `flag` in an argument vector:
scanning left to right, whenever `flag` occurs the following element is
collected as its value and the scan resumes after that value, mirroring how
a CLI binds repeated `flag value` pairs. Used to state which filter terms
the constructed invocation carries. -/
def flagValues (flag : String) : List String → List String
  | a :: b :: rest =>
    if a = flag then b :: flagValues flag rest
    else flagValues flag (b :: rest)
  | _ => []

/-- One element of the external tool's JSON array (see the module docstring
for the `Option` conventions). -/
structure RepoJson where
  fullName : String
  stargazersCount : Option Int
  language : Option String
  description : Option String
  url : String
  deriving DecidableEq, Repr

/-- One record of the adapter's shaped output. -/
structure RepoSummary where
  name : String
  stars : Int
  language : String
  description : String
  url : String
  deriving DecidableEq, Repr

/-- The description truncation from `search_repos`:
`if len(desc) > 1000: desc = desc[:997] + "..."`. -/
def truncDesc (desc : String) : String :=
  if desc.length > 1000 then pyTake desc 997 ++ "..." else desc

/-- The per-element shaping in the `for r in repos` loop of `search_repos`:
`desc = r.get("description") or ""` (then truncated),
`stars = r.get("stargazersCount", 0)`,
`language = r.get("language") or "?"`. -/
def shapeRepo (r : RepoJson) : RepoSummary :=
  { name := r.fullName
    stars := r.stargazersCount.getD 0
    language :=
      match r.language with
      | none => "?"
      | some l => if l = "" then "?" else l
    description := truncDesc (r.description.getD "")
    url := r.url }

/-- Result of `json.loads` on the captured output (module docstring). -/
inductive ParseResult where
  | failure
  | success (repos : List RepoJson)
  deriving DecidableEq, Repr

/-- Hexadecimal digit (lowercase), as used by `json.dumps` unicode escapes. -/
def hexDigit (n : Nat) : Char :=
  if n < 10 then Char.ofNat (48 + n) else Char.ofNat (87 + n)

/-- Four-digit lowercase hexadecimal rendering for a `\u` escape. -/
def hex4 (n : Nat) : String :=
  String.mk [hexDigit (n / 4096 % 16), hexDigit (n / 256 % 16),
             hexDigit (n / 16 % 16), hexDigit (n % 16)]

/-- Escaping of one character by `json.dumps` (default `ensure_ascii=True`):
printable ASCII passes through, the two-character escapes are used where
available, everything else becomes `\uXXXX` (astral code points as a
surrogate pair). -/
def jsonEscapeChar (c : Char) : String :=
  if c = '\"' then "\\\""
  else if c = '\\' then "\\\\"
  else if c = '\n' then "\\n"
  else if c = '\r' then "\\r"
  else if c = '\t' then "\\t"
  else if c.toNat = 8 then "\\b"
  else if c.toNat = 12 then "\\f"
  else if c.toNat < 32 ∨ c.toNat > 126 then
    if c.toNat ≤ 65535 then "\\u" ++ hex4 c.toNat
    else "\\u" ++ hex4 (55296 + (c.toNat - 65536) / 1024)
         ++ "\\u" ++ hex4 (56320 + (c.toNat - 65536) % 1024)
  else String.singleton c

/-- A JSON string literal as `json.dumps` renders it. -/
def jsonString (s : String) : String :=
  "\"" ++ String.join (s.data.map jsonEscapeChar) ++ "\""

/-- One repo record as rendered inside `json.dumps(..., indent=2)` at
nesting depth 2. -/
def dumpsRepo (r : RepoSummary) : String :=
  "    \x7b\n      \"name\": " ++ jsonString r.name
    ++ ",\n      \"stars\": " ++ toString r.stars
    ++ ",\n      \"language\": " ++ jsonString r.language
    ++ ",\n      \"description\": " ++ jsonString r.description
    ++ ",\n      \"url\": " ++ jsonString r.url
    ++ "\n    \x7d"

/-- The final `json.dumps({"count": len(results), "repos": results}, indent=2)`. -/
def dumpsResponse (results : List RepoSummary) : String :=
  "\x7b\n  \"count\": " ++ toString results.length
    ++ ",\n  \"repos\": "
    ++ (if results.isEmpty then "[]"
        else "[\n" ++ String.intercalate ",\n" (results.map dumpsRepo) ++ "\n  ]")
    ++ "\n\x7d"

/-- The fixed no-results string returned for an empty parsed array. -/
def noResultsMsg : String :=
  "No repositories found. Try broader or different search terms."

/-- Models the `search_repos` tool function. The six leading parameters are
the tool's parameters; `gh`, `outcome` and `jsonLoads` model `_find_gh()`,
the spawned process's behaviour, and `json.loads` (module docstring). The
body mirrors the source line by line: build the argument list, call
`_run_gh` (whose uncaught exceptions propagate), pass through any string
already starting with `"Error:"`, pass through unparseable output verbatim,
return the fixed message on an empty array, otherwise shape each element and
serialize. -/
def search_repos (query language topic owner sort : String) (limit : Int)
    (gh : Option String) (outcome : ExecOutcome)
    (jsonLoads : String → ParseResult) : Except PyExn String :=
  let args := buildArgs query language topic owner sort limit
  match run_gh args gh outcome with
  | Except.error e => Except.error e
  | Except.ok raw =>
    if pyStartsWith raw "Error:" then Except.ok raw
    else
      match jsonLoads raw with
      | ParseResult.failure => Except.ok raw
      | ParseResult.success repos =>
        if repos.isEmpty then Except.ok noResultsMsg
        else Except.ok (dumpsResponse (repos.map shapeRepo))

/-! ## Helper lemmas -/

/-- String append acts as list append on the code points. -/
theorem data_append (a b : String) : (a ++ b).data = a.data ++ b.data := rfl

/-- Length of a string built from an explicit code-point list. -/
theorem length_mk (l : List Char) : (String.mk l).length = l.length := rfl

/-- Appending anything to a string keeps it a `pyStartsWith` prefix. -/
theorem pyStartsWith_append (p x : String) : pyStartsWith (p ++ x) p = true := by
  have h : (p ++ x).data = p.data ++ x.data := rfl
  simp [pyStartsWith, h]

/-- Strings of the shape `"Error: " ++ x` start with `"Error:"`. -/
theorem errorPrefix_append (x : String) :
    pyStartsWith ("Error: " ++ x) "Error:" = true := by
  have h : ("Error: " ++ x).data = "Error: ".data ++ x.data := rfl
  simp only [pyStartsWith, h]
  rw [List.isPrefixOf_iff_prefix]
  exact List.IsPrefix.trans ⟨[' '], by decide⟩ ( List.prefix_append _ _)

/-- Unfolding of `search_repos` when the binary resolves and the external
process runs to completion. -/
theorem search_repos_completed_eq (query language topic owner sort : String)
    (limit : Int) (gh : String) (rc : Int) (out err : String)
    (jsonLoads : String → ParseResult) :
    search_repos query language topic owner sort limit (some gh)
      (ExecOutcome.completed rc out err) jsonLoads
      = (if rc ≠ 0 then Except.ok ("Error: " ++ pyStrip err)
         else if pyStartsWith (pyStrip out) "Error:" then Except.ok (pyStrip out)
         else
           match jsonLoads (pyStrip out) with
           | ParseResult.failure => Except.ok (pyStrip out)
           | ParseResult.success repos =>
             if repos.isEmpty then Except.ok noResultsMsg
             else Except.ok (dumpsResponse (repos.map shapeRepo))) := by
  by_cases hrc : rc ≠ 0 <;>
    simp [search_repos, run_gh, hrc, errorPrefix_append]

/-- The clamped limit always lies in `[1, 30]`. -/
theorem clampLimit_bounds (limit : Int) :
    1 ≤ clampLimit limit ∧ clampLimit limit ≤ 30 := by
  unfold clampLimit; omega

/-- The rendered clamped limit is a decimal numeral, never a flag token. -/
theorem toString_clampLimit_ne (limit : Int) :
    toString (clampLimit limit) ≠ "--sort" ∧
    toString (clampLimit limit) ≠ "--topic" := by
  obtain ⟨h1, h2⟩ := clampLimit_bounds limit
  set v := clampLimit limit with hv
  interval_cases v <;> exact ⟨by decide, by decide⟩

/-! ## C1 -/

/-- C1 counterexample: with the binary resolved and the external invocation
hitting the 30-second timeout, `search_repos` does not return a string — the
`TimeoutExpired` exception propagates to the caller as a structured
failure. -/
theorem C1_counterexample :
    search_repos "q" "" "" "" "stars" 20 (some "/usr/bin/gh")
      ExecOutcome.timeout (fun _ => ParseResult.failure)
      = Except.error PyExn.timeoutExpired := rfl

/-- C1 (amended): when the binary is missing, or the external process runs
to completion (any exit code), `search_repos` returns a plain string; only a
raised `TimeoutExpired` or launch/output-capture failure escapes as an
exception. -/
theorem C1_string_contract (query language topic owner sort : String)
    (limit : Int) (gh : Option String) (outcome : ExecOutcome)
    (jsonLoads : String → ParseResult)
    (h : gh = none ∨ ∃ rc out err, outcome = ExecOutcome.completed rc out err) :
    ∃ s, search_repos query language topic owner sort limit gh outcome jsonLoads
      = Except.ok s := by
  rcases h with h | ⟨rc, out, err, h⟩ <;> subst h
  · exact ⟨ghNotFoundMsg, rfl⟩
  · cases gh with
    | none => exact ⟨ghNotFoundMsg, rfl⟩
    | some g =>
      rw [search_repos_completed_eq]
      by_cases hrc : rc ≠ 0
      · rw [if_pos hrc]; exact ⟨_, rfl⟩
      · rw [if_neg hrc]
        by_cases hpre : pyStartsWith (pyStrip out) "Error:" = true
        · rw [if_pos hpre]; exact ⟨_, rfl⟩
        · rw [if_neg hpre]
          cases hjl : jsonLoads (pyStrip out) with
          | failure => exact ⟨pyStrip out, rfl⟩
          | success repos =>
            cases repos with
            | nil => exact ⟨noResultsMsg, rfl⟩
            | cons a t => exact ⟨dumpsResponse ((a :: t).map shapeRepo), rfl⟩

/-- C1 witness: a concrete call with the binary unresolved returns a string
even though the environment would have timed out. -/
theorem C1_witness :
    ∃ s, search_repos "q" "" "" "" "stars" 20 none ExecOutcome.timeout
      (fun _ => ParseResult.failure) = Except.ok s :=
  C1_string_contract "q" "" "" "" "stars" 20 none ExecOutcome.timeout
    (fun _ => ParseResult.failure) (Or.inl rfl)

/-! ## C2 -/

/-- C2: the limit is clamped into `[1, 30]` — inputs below 1 become 1,
inputs above 30 become 30, in-range inputs pass unchanged — and the clamped
value is what the constructed invocation carries after `--limit`; no input
is rejected. -/
theorem C2_limit_clamped (query language topic owner sort : String)
    (limit : Int) :
    (limit < 1 → clampLimit limit = 1) ∧
    (limit > 30 → clampLimit limit = 30) ∧
    (1 ≤ limit → limit ≤ 30 → clampLimit limit = limit) ∧
    ∃ rest, buildArgs query language topic owner sort limit
      = ["search", "repos", query, "--json", jsonFields,
         "--limit", toString (clampLimit limit)] ++ rest := by
  refine ⟨fun h => ?_, fun h => ?_, fun h1 h2 => ?_, ?_⟩
  · unfold clampLimit; omega
  · unfold clampLimit; omega
  · unfold clampLimit; omega
  · exact ⟨(if sort ≠ "best-match" then ["--sort", sort] else []) ++
      ((if language ≠ "" then ["--language", language] else []) ++
        (topicArgs topic ++ (if owner ≠ "" then ["--owner", owner] else []))),
      by simp [buildArgs, List.append_assoc]⟩

/-- C2 witness: the spec's three sample limits. -/
theorem C2_witness :
    clampLimit (-5) = 1 ∧ clampLimit 500 = 30 ∧ clampLimit 10 = 10 :=
  ⟨(C2_limit_clamped "q" "" "" "" "stars" (-5)).1 (by decide),
   (C2_limit_clamped "q" "" "" "" "stars" 500).2.1 (by decide),
   (C2_limit_clamped "q" "" "" "" "stars" 10).2.2.1 (by decide) (by decide)⟩

/-! ## C3 -/

/-- C3: a description longer than 1000 code points is replaced by its first
997 code points followed by `"..."` — exactly 1000 code points total, with
the first 997 preserved verbatim — while a description of length at most
1000 is left unchanged; this is exactly the description field of the shaped
output record. -/
theorem C3_truncation (desc : String) :
    (desc.length > 1000 →
       truncDesc desc = pyTake desc 997 ++ "..." ∧
       (truncDesc desc).length = 1000 ∧
       (truncDesc desc).data.take 997 = desc.data.take 997) ∧
    (desc.length ≤ 1000 → truncDesc desc = desc) ∧
    ∀ r : RepoJson, r.description = some desc →
      (shapeRepo r).description = truncDesc desc := by
  refine ⟨fun h => ⟨?_, ?_, ?_⟩, fun h => ?_, fun r hr => ?_⟩
  · unfold truncDesc; rw [if_pos h]
  · have hlen : desc.data.length > 1000 := h
    have hd : (truncDesc desc).data = desc.data.take 997 ++ "...".data := by
      unfold truncDesc; rw [if_pos h]; rfl
    show (truncDesc desc).data.length = 1000
    rw [hd, List.length_append, List.length_take,
      show ("...".data.length) = 3 from rfl]
    omega
  · have hlen : desc.data.length > 1000 := h
    have hd : (truncDesc desc).data = desc.data.take 997 ++ "...".data := by
      unfold truncDesc; rw [if_pos h]; rfl
    rw [hd,
      List.take_append_of_le_length (by rw [List.length_take]; omega),
      List.take_take, Nat.min_self]
  · unfold truncDesc; rw [if_neg (by omega)]
  · simp [shapeRepo, hr]

/-- C3 witness: a 1500-character description is truncated to exactly 1000
characters ending in `"..."` with the first 997 preserved, and a
900-character description is unchanged. -/
theorem C3_witness :
    truncDesc (String.mk (List.replicate 1500 'a'))
      = pyTake (String.mk (List.replicate 1500 'a')) 997 ++ "..." ∧
    (truncDesc (String.mk (List.replicate 1500 'a'))).length = 1000 ∧
    truncDesc (String.mk (List.replicate 900 'b'))
      = String.mk (List.replicate 900 'b') :=
  ⟨((C3_truncation (String.mk (List.replicate 1500 'a'))).1
      (by rw [show (String.mk (List.replicate 1500 'a')).length = 1500 by
        rw [length_mk, List.length_replicate]]; omega)).1,
   ((C3_truncation (String.mk (List.replicate 1500 'a'))).1
      (by rw [show (String.mk (List.replicate 1500 'a')).length = 1500 by
        rw [length_mk, List.length_replicate]]; omega)).2.1,
   (C3_truncation (String.mk (List.replicate 900 'b'))).2.1
      (by rw [show (String.mk (List.replicate 900 'b')).length = 900 by
        rw [length_mk, List.length_replicate]]; omega)⟩

/-! ## C4 -/

/-- C4: whenever the external process exits non-zero, `search_repos` returns
exactly `"Error: "` followed by the stderr content with surrounding
whitespace stripped. -/
theorem C4_nonzero_exit (query language topic owner sort : String)
    (limit : Int) (gh : String) (rc : Int) (out err : String)
    (jsonLoads : String → ParseResult) (h : rc ≠ 0) :
    search_repos query language topic owner sort limit (some gh)
      (ExecOutcome.completed rc out err) jsonLoads
      = Except.ok ("Error: " ++ pyStrip err) := by
  rw [search_repos_completed_eq, if_pos h]

/-- C4 witness: exit code 1 with stderr `"rate limit exceeded"` yields
exactly `"Error: rate limit exceeded"`. -/
theorem C4_witness :
    search_repos "q" "" "" "" "stars" 20 (some "/usr/bin/gh")
      (ExecOutcome.completed 1 "" "rate limit exceeded")
      (fun _ => ParseResult.failure)
      = Except.ok "Error: rate limit exceeded" := by
  have h := C4_nonzero_exit "q" "" "" "" "stars" 20 "/usr/bin/gh" 1 ""
    "rate limit exceeded" (fun _ => ParseResult.failure) (by decide)
  rw [h]; rfl

/-! ## C7 -/

/-- C7: in the shaped output record, the star count defaults to 0 when the
field is absent, the language defaults to `"?"` when absent (or null) or
empty, and the description defaults to `""` when absent or null. -/
theorem C7_defaults (r : RepoJson) :
    (r.stargazersCount = none → (shapeRepo r).stars = 0) ∧
    ((r.language = none ∨ r.language = some "") → (shapeRepo r).language = "?") ∧
    (r.description = none → (shapeRepo r).description = "") := by
  refine ⟨fun h => ?_, fun h => ?_, fun h => ?_⟩
  · simp [shapeRepo, h]
  · rcases h with h | h <;> simp [shapeRepo, h]
  · simp [shapeRepo, h]; rfl

/-- C7 witness: an element missing the language key and with a null
description yields `language = "?"` and `description = ""`; a missing star
count yields `stars = 0`. -/
theorem C7_witness :
    (shapeRepo ⟨"octo/hub", some 5, none, none, "https://e.com/octo/hub"⟩).language
      = "?" ∧
    (shapeRepo ⟨"octo/hub", some 5, none, none, "https://e.com/octo/hub"⟩).description
      = "" ∧
    (shapeRepo ⟨"octo/hub", none, some "C", some "d", "https://e.com/octo/hub"⟩).stars
      = 0 :=
  ⟨(C7_defaults ⟨"octo/hub", some 5, none, none, "https://e.com/octo/hub"⟩).2.1
      (Or.inl rfl),
   (C7_defaults ⟨"octo/hub", some 5, none, none, "https://e.com/octo/hub"⟩).2.2 rfl,
   (C7_defaults ⟨"octo/hub", none, some "C", some "d", "https://e.com/octo/hub"⟩).1
      rfl⟩

/-! ## C8 -/

/-- C8: when the external tool succeeds and its stripped stdout parses to an
empty JSON array, `search_repos` returns the fixed no-results string. -/
theorem C8_empty_results (query language topic owner sort : String)
    (limit : Int) (gh : String) (out err : String)
    (jsonLoads : String → ParseResult)
    (hpre : pyStartsWith (pyStrip out) "Error:" = false)
    (hparse : jsonLoads (pyStrip out) = ParseResult.success []) :
    search_repos query language topic owner sort limit (some gh)
      (ExecOutcome.completed 0 out err) jsonLoads = Except.ok noResultsMsg := by
  rw [search_repos_completed_eq, if_neg (by omega), hpre]
  simp [hparse]

/-- C8 witness: stdout `"[]"`, parsing to the empty array, yields the fixed
no-results string. -/
theorem C8_witness :
    search_repos "q" "" "" "" "stars" 20 (some "/usr/bin/gh")
      (ExecOutcome.completed 0 "[]" "")
      (fun s => if s = "[]" then ParseResult.success [] else ParseResult.failure)
      = Except.ok noResultsMsg :=
  C8_empty_results "q" "" "" "" "stars" 20 "/usr/bin/gh" "[]" ""
    (fun s => if s = "[]" then ParseResult.success [] else ParseResult.failure)
    (by decide) (by decide)

/-! ## C9 -/

/-- C9 counterexample: the external tool exits 0 with stdout
`"not json\n"` (which fails to parse as JSON), yet `search_repos` returns
the stripped string `"not json"`, not the captured stdout verbatim. -/
theorem C9_counterexample :
    search_repos "q" "" "" "" "stars" 20 (some "/usr/bin/gh")
      (ExecOutcome.completed 0 "not json\n" "") (fun _ => ParseResult.failure)
      = Except.ok "not json" ∧
    search_repos "q" "" "" "" "stars" 20 (some "/usr/bin/gh")
      (ExecOutcome.completed 0 "not json\n" "") (fun _ => ParseResult.failure)
      ≠ Except.ok "not json\n" := by
  have h1 : search_repos "q" "" "" "" "stars" 20 (some "/usr/bin/gh")
      (ExecOutcome.completed 0 "not json\n" "") (fun _ => ParseResult.failure)
      = Except.ok "not json" := rfl
  refine ⟨h1, fun h2 => ?_⟩
  rw [h1] at h2
  have h3 : ("not json" : String) = "not json\n" := by injection h2
  exact absurd h3 (by decide)

/-- C9 (amended): when the external tool exits 0 and the captured stdout
fails to parse as JSON, `search_repos` returns the captured stdout with
surrounding whitespace stripped (otherwise verbatim). -/
theorem C9_parse_failure (query language topic owner sort : String)
    (limit : Int) (gh : String) (out err : String)
    (jsonLoads : String → ParseResult)
    (hparse : jsonLoads (pyStrip out) = ParseResult.failure) :
    search_repos query language topic owner sort limit (some gh)
      (ExecOutcome.completed 0 out err) jsonLoads = Except.ok (pyStrip out) := by
  rw [search_repos_completed_eq, if_neg (by omega)]
  by_cases hpre : pyStartsWith (pyStrip out) "Error:" = true
  · rw [if_pos hpre]
  · rw [if_neg hpre]
    simp [hparse]

/-- C9 witness: stdout `"oops\n"` failing to parse comes back as `"oops"`. -/
theorem C9_witness :
    search_repos "q" "" "" "" "stars" 20 (some "/usr/bin/gh")
      (ExecOutcome.completed 0 "oops\n" "") (fun _ => ParseResult.failure)
      = Except.ok "oops" := by
  have h := C9_parse_failure "q" "" "" "" "stars" 20 "/usr/bin/gh" "oops\n" ""
    (fun _ => ParseResult.failure) (by decide)
  rw [h]; rfl

/-! ## C10 -/

/-- C10: when the external tool exits 0 and its stripped stdout begins with
`"Error:"`, `search_repos` returns that stripped stdout as-is, for any
behaviour of the JSON parser whatsoever (the parse is never attempted), so
the caller cannot distinguish it from an adapter-generated error string. -/
theorem C10_error_passthrough (query language topic owner sort : String)
    (limit : Int) (gh : String) (out err : String)
    (jsonLoads : String → ParseResult)
    (hpre : pyStartsWith (pyStrip out) "Error:" = true) :
    search_repos query language topic owner sort limit (some gh)
      (ExecOutcome.completed 0 out err) jsonLoads = Except.ok (pyStrip out) := by
  rw [search_repos_completed_eq, if_neg (by omega), if_pos hpre]

/-- C10 witness: stdout `"Error: boom\n"` on exit 0 is returned stripped and
untouched even under a parser that would have produced repositories. -/
theorem C10_witness :
    search_repos "q" "" "" "" "stars" 20 (some "/usr/bin/gh")
      (ExecOutcome.completed 0 "Error: boom\n" "")
      (fun _ => ParseResult.success [⟨"x/y", some 1, some "C", some "d", "u"⟩])
      = Except.ok "Error: boom" := by
  have h := C10_error_passthrough "q" "" "" "" "stars" 20 "/usr/bin/gh"
    "Error: boom\n" ""
    (fun _ => ParseResult.success [⟨"x/y", some 1, some "C", some "d", "u"⟩])
    (by decide)
  rw [h]; rfl

/-! ## Helper lemmas for the argument-vector claims -/

/-- Scanning past a non-flag element changes nothing. -/
theorem flagValues_cons_ne (flag a : String) (t : List String) (h : a ≠ flag) :
    flagValues flag (a :: t) = flagValues flag t := by
  cases t with
  | nil => rfl
  | cons b rest => simp [flagValues, h]

/-- Scanning past a whole flag-free block changes nothing. -/
theorem flagValues_append_ne (flag : String) (l1 l2 : List String)
    (h : ∀ a ∈ l1, a ≠ flag) :
    flagValues flag (l1 ++ l2) = flagValues flag l2 := by
  induction l1 with
  | nil => rfl
  | cons a t ih =>
    rw [List.cons_append, flagValues_cons_ne _ _ _ (h a (List.mem_cons_self a t))]
    exact ih (fun x hx => h x (List.mem_cons_of_mem a hx))

/-- A block of `flag value` pairs contributes exactly its values, in
order. -/
theorem flagValues_pairs (flag : String) (f : String → String)
    (l : List String) (tail : List String) :
    flagValues flag ((l.flatMap fun t => [flag, f t]) ++ tail)
      = l.map f ++ flagValues flag tail := by
  induction l with
  | nil => simp
  | cons a t ih =>
    simp only [List.flatMap_cons, List.append_assoc, List.cons_append,
      List.nil_append, List.map_cons]
    simp [flagValues, ih]

/-- Membership in a guarded block implies membership in its content. -/
theorem mem_of_mem_ite_nil {c : Prop} [Decidable c] {l : List String}
    {x : String} (h : x ∈ if c then l else []) : x ∈ l := by
  by_cases hc : c
  · rwa [if_pos hc] at h
  · rw [if_neg hc] at h
    exact absurd h (List.not_mem_nil x)

/-! ## C5 -/

/-- C5: with `sort = "best-match"` the constructed argument list carries no
`"--sort"` token at all (provided no other parameter value is itself the
literal token `"--sort"`); with any other sort value the list contains
`"--sort"` immediately followed by exactly that value. -/
theorem C5_sort_flag (query language topic owner sort : String) (limit : Int) :
    (sort = "best-match" →
       query ≠ "--sort" → language ≠ "--sort" → owner ≠ "--sort" →
       (∀ t ∈ pySplit topic ',', pyStrip t ≠ "--sort") →
       "--sort" ∉ buildArgs query language topic owner sort limit) ∧
    (sort ≠ "best-match" →
       ∃ l1 l2, buildArgs query language topic owner sort limit
         = l1 ++ ["--sort", sort] ++ l2) := by
  constructor
  · intro hsort hq hl ho hseg hmem
    subst hsort
    simp only [buildArgs, topicArgs, List.mem_append] at hmem
    rcases hmem with ((((h | h) | h) | h) | h)
    · simp only [List.mem_cons, List.not_mem_nil, or_false] at h
      rcases h with h | h | h | h | h | h | h
      · exact absurd h (by decide)
      · exact absurd h (by decide)
      · exact hq h.symm
      · exact absurd h (by decide)
      · exact absurd h (by decide)
      · exact absurd h (by decide)
      · exact (toString_clampLimit_ne limit).1 h.symm
    · simp at h
    · have h2 := mem_of_mem_ite_nil h
      simp only [List.mem_cons, List.not_mem_nil, or_false] at h2
      rcases h2 with h2 | h2
      · exact absurd h2 (by decide)
      · exact hl h2.symm
    · have h2 := mem_of_mem_ite_nil h
      rw [List.mem_flatMap] at h2
      obtain ⟨t, ht, h3⟩ := h2
      simp only [List.mem_cons, List.not_mem_nil, or_false] at h3
      rcases h3 with h3 | h3
      · exact absurd h3 (by decide)
      · exact hseg t ht h3.symm
    · have h2 := mem_of_mem_ite_nil h
      simp only [List.mem_cons, List.not_mem_nil, or_false] at h2
      rcases h2 with h2 | h2
      · exact absurd h2 (by decide)
      · exact ho h2.symm
  · intro hsort
    refine ⟨["search", "repos", query, "--json", jsonFields, "--limit",
      toString (clampLimit limit)],
      (if language ≠ "" then ["--language", language] else []) ++
        (topicArgs topic ++ (if owner ≠ "" then ["--owner", owner] else [])),
      ?_⟩
    simp [buildArgs, hsort]

/-- C5 witness: with `sort = "best-match"` the token `"--sort"` is absent
from a concrete invocation; with `sort = "stars"` the pair
`"--sort" "stars"` appears. -/
theorem C5_witness :
    "--sort" ∉ buildArgs "vim plugin" "python" "cli" "octo" "best-match" 20 ∧
    ∃ l1 l2, buildArgs "vim plugin" "python" "cli" "octo" "stars" 20
      = l1 ++ ["--sort", "stars"] ++ l2 :=
  ⟨(C5_sort_flag "vim plugin" "python" "cli" "octo" "best-match" 20).1 rfl
      (by decide) (by decide) (by decide) (by decide),
   (C5_sort_flag "vim plugin" "python" "cli" "octo" "stars" 20).2 (by decide)⟩

/-! ## C6 -/

/-- C6: for every non-empty topic input, the topic filter terms carried by
the constructed argument list are exactly the comma-separated segments of
the input with surrounding whitespace stripped, in order and with empty
segments kept (provided no other parameter value is itself the literal
token `"--topic"`). -/
theorem C6_topic_terms (query language topic owner sort : String)
    (limit : Int) (htopic : topic ≠ "")
    (hq : query ≠ "--topic") (hl : language ≠ "--topic")
    (hs : sort ≠ "--topic") :
    flagValues "--topic" (buildArgs query language topic owner sort limit)
      = (pySplit topic ',').map pyStrip := by
  have hbase : ∀ a ∈ ["search", "repos", query, "--json", jsonFields,
      "--limit", toString (clampLimit limit)], a ≠ "--topic" := by
    intro a ha
    simp only [List.mem_cons, List.not_mem_nil, or_false] at ha
    rcases ha with rfl | rfl | rfl | rfl | rfl | rfl | rfl
    · decide
    · decide
    · exact hq
    · decide
    · decide
    · decide
    · exact (toString_clampLimit_ne limit).2
  unfold buildArgs topicArgs
  rw [if_pos htopic]
  simp only [List.append_assoc]
  rw [flagValues_append_ne _ _ _ hbase]
  by_cases hbm : sort ≠ "best-match"
  · rw [if_pos hbm, flagValues_append_ne _ ["--sort", sort] _ (by
      intro a ha
      simp only [List.mem_cons, List.not_mem_nil, or_false] at ha
      rcases ha with rfl | rfl
      · decide
      · exact hs)]
    by_cases hlg : language ≠ ""
    · rw [if_pos hlg, flagValues_append_ne _ ["--language", language] _ (by
        intro a ha
        simp only [List.mem_cons, List.not_mem_nil, or_false] at ha
        rcases ha with rfl | rfl
        · decide
        · exact hl)]
      rw [flagValues_pairs]
      by_cases how : owner ≠ ""
      · rw [if_pos how, flagValues_cons_ne _ _ _ (by decide)]
        simp [flagValues]
      · rw [if_neg how]
        simp [flagValues]
    · rw [if_neg hlg, List.nil_append, flagValues_pairs]
      by_cases how : owner ≠ ""
      · rw [if_pos how, flagValues_cons_ne _ _ _ (by decide)]
        simp [flagValues]
      · rw [if_neg how]
        simp [flagValues]
  · rw [if_neg hbm, List.nil_append]
    by_cases hlg : language ≠ ""
    · rw [if_pos hlg, flagValues_append_ne _ ["--language", language] _ (by
        intro a ha
        simp only [List.mem_cons, List.not_mem_nil, or_false] at ha
        rcases ha with rfl | rfl
        · decide
        · exact hl)]
      rw [flagValues_pairs]
      by_cases how : owner ≠ ""
      · rw [if_pos how, flagValues_cons_ne _ _ _ (by decide)]
        simp [flagValues]
      · rw [if_neg how]
        simp [flagValues]
    · rw [if_neg hlg, List.nil_append, flagValues_pairs]
      by_cases how : owner ≠ ""
      · rw [if_pos how, flagValues_cons_ne _ _ _ (by decide)]
        simp [flagValues]
      · rw [if_neg how]
        simp [flagValues]

/-- C6 witness: topic `"cli, mcp-server"` produces exactly the two topic
filter terms `"cli"` and `"mcp-server"`. -/
theorem C6_witness :
    flagValues "--topic" (buildArgs "q" "" "cli, mcp-server" "" "stars" 20)
      = ["cli", "mcp-server"] := by
  have h := C6_topic_terms "q" "" "cli, mcp-server" "" "stars" 20
    (by decide) (by decide) (by decide) (by decide)
  rw [h]; rfl
